import Mathlib

set_option linter.unusedVariables false

/-!
# A shallow embedding of the LayerZeroMetaView cross-chain read core

This file embeds the "lzRead" cross-chain query core of the repository:
the chain-data resolver (`fetchChainData`), the two query dispatchers
(`Lzread.performCrossChainQuery` from `server/lzread.ts` and
`LzreadCli.performCrossChainQuery` from the CLI-flavoured module that also
holds the wallet vacuum), the wallet vacuum (`LzreadCli.performWalletVacuum`),
the balance formatter (`formatBalance`) and the request ledger accessors
(`getRecentRequests`, `getRequestById`).

Network I/O is modelled by a `World` oracle mapping each outbound JSON-RPC
request to an outcome (a transport-level rejection — which also covers the
10-second abort — or an HTTP response with a JSON-RPC body).  `Date.now()`
is modelled by the ambient clock reading `World.now`; an unexpected
orchestration-level exception inside a dispatcher's `try` block is modelled
by the flag `World.orchFault`.  JavaScript numbers produced by `parseInt`
are modelled exactly (arbitrary-precision integers, `Option.none` for `NaN`);
every input the theorems below touch is far below 2^53, where JavaScript
doubles are exact.
-/

/-- The query types accepted by the core (shared/types.ts `CrossChainQuery`). -/
inductive QueryType
  | balance
  | nonce
  | code
  | transactions
  | storage
deriving DecidableEq, Repr

/-- `CrossChainQuery` from shared/types.ts.  `blockNumber` is the optional
block number (`none` models the field being absent). -/
structure CrossChainQuery where
  address : String
  queryType : QueryType
  chains : List String
  blockNumber : Option Nat
deriving DecidableEq, Repr

/-- A transaction object inside a fetched block.  `txFrom`/`txTo` model the
JavaScript `from`/`to` fields (`none` models an absent field); `hash`
stands for the remaining payload of the transaction object. -/
structure Tx where
  txFrom : Option String
  txTo : Option String
  hash : String
deriving DecidableEq, Repr

/-- A JSON value appearing in the `result` field of a JSON-RPC response body:
either a hex string or a block object (whose `number`/`timestamp` fields may
be absent and whose `transactions` field is an array). -/
inductive JsVal
  | str (s : String)
  | block (number : Option String) (timestamp : Option String) (txs : List Tx)
deriving DecidableEq, Repr

/-- The `data` payload of a `ChainData`: the raw RPC value, the filtered
transaction object built for `transactions` queries, the error-marker object
`\x7b error: msg \x7d`, or JavaScript `null`/`undefined`. -/
inductive JsData
  | nullVal
  | str (s : String)
  | block (number : Option String) (timestamp : Option String) (txs : List Tx)
  | txObj (txs : List Tx) (number : Option String) (timestamp : Option String)
  | errObj (msg : String)
deriving DecidableEq, Repr

/-- A positional JSON-RPC parameter (the code only ever sends strings and
booleans). -/
inductive RpcParam
  | str (s : String)
  | bool (b : Bool)
deriving DecidableEq, Repr

/-- One outbound JSON-RPC POST: target URL, method and params.  The constant
`jsonrpc: "2.0"`/`id: 1` envelope fields are omitted from the model. -/
structure RpcRequest where
  url : String
  method : String
  params : List RpcParam
deriving DecidableEq, Repr

/-- A JSON-RPC response body, as read by `response.json()`:
`result` is `none` when the field is absent or `null`; `error` is
`some s` when the body carries a truthy JSON-RPC `error` value whose
`JSON.stringify` serialisation is `s` (absent or falsy error values are
modelled as `none`, matching the `if (result.error)` truthiness test). -/
structure RpcBody where
  result : Option JsVal
  error : Option String
deriving DecidableEq, Repr

/-- The outcome of one `fetch`: a rejection (network failure, the 10-second
abort, or a failing `response.json()`), carrying the error message, or an
HTTP response with a status code and parsed body. -/
inductive FetchOutcome
  | reject (msg : String)
  | ok (status : Nat) (body : RpcBody)
deriving DecidableEq, Repr

/-- The environment of one dispatch: the network oracle, the wall clock
(every `Date.now()` reading inside the dispatch), and whether an unexpected
orchestration-level exception fires inside the dispatcher's `try` block. -/
structure World where
  respond : RpcRequest → FetchOutcome
  now : Nat
  orchFault : Bool

/-- `ChainData` from shared/types.ts.  `blockNumber`/`timestamp` are
JavaScript numbers produced by `parseInt(_, 16)` or `Date.now()`;
`none` models `NaN`. -/
structure ChainData where
  chainKey : String
  eid : String
  blockNumber : Option Int
  timestamp : Option Int
  data : JsData
deriving DecidableEq, Repr

/-- `CrossChainResult` from shared/types.ts. -/
structure CrossChainResult where
  address : String
  queryType : String
  results : List ChainData
  timestamp : Nat
deriving DecidableEq, Repr

/-- `AssetData` from shared/types.ts.  `balance` keeps whatever value the
code stores there (`nativeData.data || '0x0'`), which is an arbitrary
JavaScript value, not necessarily a string. -/
structure AssetData where
  chain : String
  eid : String
  assetType : String
  symbol : String
  name : String
  balance : JsData
  balanceFormatted : String
  decimals : Nat
  blockNumber : Option Int
  lastUpdated : Option Int
deriving DecidableEq, Repr

/-- `WalletScanResult` from shared/types.ts. -/
structure WalletScanResult where
  address : String
  totalChains : Nat
  chainsWithAssets : Nat
  assets : List AssetData
  timestamp : Nat
deriving DecidableEq, Repr

/-- The request lifecycle states. -/
inductive RequestStatus
  | pending
  | completed
  | failed
deriving DecidableEq, Repr

/-- `LzReadRequest` from shared/types.ts — one ledger record. -/
structure LzReadRequest where
  id : String
  sourceChain : String
  targetChains : List String
  requestType : String
  status : RequestStatus
  timestamp : Nat
  result : Option CrossChainResult
  walletScan : Option WalletScanResult
deriving DecidableEq, Repr

/-- Observable events of one dispatch, in program order: the synchronous
append of the pending record, each outbound network call, and the single
in-place pending→terminal status transition. -/
inductive Event
  | append (r : LzReadRequest)
  | netCall (req : RpcRequest)
  | finalize (id : String) (st : RequestStatus)
deriving DecidableEq, Repr

/-- The result of running a dispatcher: the ledger after the call, the
returned (terminal) record, and the event trace. -/
structure DispatchOut where
  history : List LzReadRequest
  record : LzReadRequest
  trace : List Event
deriving Repr

/-- The string form of a query type (TypeScript stores it as a string). -/
def queryTypeStr : QueryType → String
  | .balance => "balance"
  | .nonce => "nonce"
  | .code => "code"
  | .transactions => "transactions"
  | .storage => "storage"

/-! ## JavaScript primitive semantics -/

/-- Lower-casing as used on hex addresses (`String.prototype.toLowerCase`,
restricted to ASCII, which covers every address the code compares). -/
def jsLower (s : String) : String :=
  String.mk (s.toList.map Char.toLower)

/-- Value of one hex digit. -/
def hexDigitVal (c : Char) : Option Nat :=
  if ('0' ≤ c ∧ c ≤ '9') then some (c.toNat - '0'.toNat)
  else if ('a' ≤ c ∧ c ≤ 'f') then some (c.toNat - 'a'.toNat + 10)
  else if ('A' ≤ c ∧ c ≤ 'F') then some (c.toNat - 'A'.toNat + 10)
  else none

/-- Greedy hex-digit accumulator: consumes the longest digit prefix. -/
def hexAcc : List Char → Nat → Nat
  | [], acc => acc
  | c :: rest, acc =>
    match hexDigitVal c with
    | some d => hexAcc rest (acc * 16 + d)
    | none => acc

/-- `parseInt(s, 16)`: skip leading whitespace, an optional sign and an
optional `0x`/`0X` prefix, then read the longest hex-digit prefix;
`none` models `NaN` (no digit was read).  `parseInt` never throws. -/
def jsParseInt16 (s : String) : Option Int :=
  let cs := s.toList.dropWhile (fun c => c = ' ' ∨ c = '\t' ∨ c = '\n' ∨ c = '\r')
  let signed : Int × List Char :=
    match cs with
    | '-' :: rest => (-1, rest)
    | '+' :: rest => (1, rest)
    | _ => (1, cs)
  let body : List Char :=
    match signed.2 with
    | '0' :: 'x' :: rest => rest
    | '0' :: 'X' :: rest => rest
    | _ => signed.2
  match body with
  | [] => none
  | c :: _ =>
    match hexDigitVal c with
    | none => none
    | some _ => some (signed.1 * (hexAcc body 0 : Int))

/-- `n.toString(16)` for a natural number: lowercase base-16 digits. -/
def natHexStr (n : Nat) : String :=
  (Nat.toDigits 16 n).asString

/-- The block-tag argument `query.blockNumber ? \x7b hex \x7d : 'latest'`:
JavaScript truthiness means a *zero* block number is treated like an absent
one and maps to `"latest"`. -/
def jsBlockTag (bn : Option Nat) : String :=
  match bn with
  | some n => if n ≠ 0 then "0x" ++ natHexStr n else "latest"
  | none => "latest"

/-- JavaScript falsiness of a `data` value (`null`, `undefined` and the
empty string are falsy; every other value the model can hold is truthy). -/
def jsFalsy : JsData → Bool
  | .nullVal => true
  | .str s => s = ""
  | _ => false

/-- `d || '0x0'`. -/
def jsOrDefault (d : JsData) : JsData :=
  if jsFalsy d then .str "0x0" else d

/-- String coercion applied when a `data` value reaches a string position
(`parseInt` coerces its argument with `String(·)`). -/
def jsStringOf : JsData → String
  | .nullVal => "null"
  | .str s => s
  | .errObj _ => "[object Object]"
  | .block _ _ _ => "[object Object]"
  | .txObj _ _ _ => "[object Object]"

/-! ## formatBalance (the fixed-point display formatter) -/

/-- Left-pad the decimal digits of `n` with zeros to 4 places. -/
def padLeft4 (n : Nat) : String :=
  let s := toString n
  (String.mk (List.replicate (4 - s.length) '0')) ++ s

/-- Drop trailing `'0'` characters. -/
def dropTrailingZeros (s : String) : String :=
  String.mk (s.toList.reverse.dropWhile (fun c => c = '0')).reverse

/-- Thousands grouping over a string of decimal digits (rightmost first). -/
def group3Go : List Char → Nat → List Char
  | [], _ => []
  | c :: rest, k =>
    if k = 3 then ',' :: c :: group3Go rest 1 else c :: group3Go rest (k + 1)

/-- Insert `','` every three digits from the right, as
`Number.prototype.toLocaleString` does with default grouping. -/
def group3 (s : String) : String :=
  String.mk ((group3Go s.toList.reverse 0).reverse)

/-- `(v / 10^d).toLocaleString(undefined, \x7b maximumFractionDigits: 4 \x7d)`
for the finite value `v / 10^d` held exactly: round to 4 fraction digits
(half away from zero, the default Intl rounding), strip trailing fraction
zeros, and group the integer part. -/
def jsLocaleFormat (v : Int) (d : Nat) : String :=
  let b := 10 ^ d
  let a := v.natAbs * 10000
  let n := (2 * a + b) / (2 * b)
  let ip := n / 10000
  let fp := n % 10000
  let frac := dropTrailingZeros (padLeft4 fp)
  let core := group3 (toString ip) ++ (if frac = "" then "" else "." ++ frac)
  if v < 0 then "-" ++ core else core

/-- `formatBalance(hexBalance, decimals)` from the wallet-vacuum module.
The guard `!hexBalance || hexBalance === '0x0'` returns `"0"`.  Otherwise
`parseInt(hexBalance, 16) / Math.pow(10, decimals)` is computed; a `NaN`
parse result propagates through the division and the range test (every
comparison against `NaN` is false) into `toLocaleString`, which renders it
as `"NaN"` — `parseInt` does not throw, so the `catch` branch returning
`"0"` is unreachable.  The range test `balance < 0.0001 && balance > 0` is
expressed exactly over integers: `v / 10^d < 1/10^4 ∧ 0 < v`, which agrees
with the double-precision comparison for every value below the threshold. -/
def formatBalance (hexBalance : String) (decimals : Nat) : String :=
  if hexBalance = "" ∨ hexBalance = "0x0" then "0"
  else
    match jsParseInt16 hexBalance with
    | none => "NaN"
    | some v =>
      if 0 < v ∧ 10000 * v < (10 : Int) ^ decimals then "< 0.0001"
      else jsLocaleFormat v decimals

/-! ## fetchChainData (the per-chain resolver, identical in both modules) -/

/-- The query-type → JSON-RPC method-and-params table inside
`fetchChainData` (the `switch (query.queryType)` on RPC methods). -/
def rpcMethodParams (query : CrossChainQuery) : String × List RpcParam :=
  match query.queryType with
  | .balance =>
    ("eth_getBalance", [.str query.address, .str (jsBlockTag query.blockNumber)])
  | .nonce =>
    ("eth_getTransactionCount", [.str query.address, .str (jsBlockTag query.blockNumber)])
  | .code =>
    ("eth_getCode", [.str query.address, .str (jsBlockTag query.blockNumber)])
  | .transactions =>
    ("eth_getBlockByNumber", [.str (jsBlockTag query.blockNumber), .bool true])
  | .storage =>
    ("eth_getStorageAt",
      [.str query.address, .str "0x0", .str (jsBlockTag query.blockNumber)])

/-- The primary JSON-RPC request of `fetchChainData`. -/
def primaryRequest (rpcUrl : String) (query : CrossChainQuery) : RpcRequest :=
  { url := rpcUrl, method := (rpcMethodParams query).1, params := (rpcMethodParams query).2 }

/-- The follow-up block-header request of `fetchChainData`. -/
def blockInfoRequest (rpcUrl : String) (query : CrossChainQuery) : RpcRequest :=
  { url := rpcUrl, method := "eth_getBlockByNumber"
    params := [.str (jsBlockTag query.blockNumber), .bool false] }

/-- `response.ok`: HTTP status in the 200–299 range. -/
def responseOkB (status : Nat) : Bool :=
  200 ≤ status ∧ status ≤ 299

/-- Does the primary call fail at the transport, HTTP or JSON-RPC level? -/
def failedOutcome : FetchOutcome → Bool
  | .reject _ => true
  | .ok status body => !responseOkB status || body.error.isSome

/-- Case-insensitive sender/recipient test used to post-filter a block's
transactions: `tx.from?.toLowerCase() === address.toLowerCase() ||
tx.to?.toLowerCase() === address.toLowerCase()` (an absent field compares
unequal). -/
def txMatch (address : String) (tx : Tx) : Bool :=
  tx.txFrom.map jsLower == some (jsLower address)
    || tx.txTo.map jsLower == some (jsLower address)

/-- `data = result.result`, with the transaction post-filter: when the query
type is `transactions` and `result.result?.transactions` is an array, the
payload becomes the filtered transaction object carrying the block's
`number` and `timestamp` fields. -/
def dataFor (query : CrossChainQuery) : Option JsVal → JsData
  | none => .nullVal
  | some (.str s) => .str s
  | some (.block num ts txs) =>
    if query.queryType = .transactions then
      .txObj (txs.filter (txMatch query.address)) num ts
    else
      .block num ts txs

/-- `blockData.result?.number` (resp. `.timestamp`) of the second response. -/
def blockNumberField : Option JsVal → Option String
  | some (.block num _ _) => num
  | _ => none

def blockTimestampField : Option JsVal → Option String
  | some (.block _ ts _) => ts
  | _ => none

/-- `x || '0x0'` on an optional string field (absent or empty → `"0x0"`). -/
def hexOrDefault : Option String → String
  | some s => if s = "" then "0x0" else s
  | none => "0x0"

/-- `error.message || 'Unknown error'`. -/
def errMsgOr (msg : String) : String :=
  if msg = "" then "Unknown error" else msg

/-- The error-shaped `ChainData` built by the `catch` branch of
`fetchChainData`: block number 0, `Date.now()` timestamp, error payload. -/
def errChainData (chainKey eid : String) (now : Nat) (msg : String) : ChainData :=
  { chainKey := chainKey, eid := eid, blockNumber := some 0,
    timestamp := some (now : Int), data := .errObj (errMsgOr msg) }

/-- `fetchChainData(rpcUrl, chainKey, eid, query)` — one per-chain resolve.
Returns the `ChainData` together with the list of network calls issued, in
order.  The `try` body issues the primary call (non-2xx status and a truthy
JSON-RPC `error` field are thrown as errors), derives the payload, then
issues the best-effort block-header call; any rejection reaches the `catch`
branch, which returns the error-shaped result instead of raising. -/
def fetchChainData (w : World) (rpcUrl chainKey eid : String)
    (query : CrossChainQuery) : ChainData × List RpcRequest :=
  match w.respond (primaryRequest rpcUrl query) with
  | .reject msg =>
    (errChainData chainKey eid w.now msg, [primaryRequest rpcUrl query])
  | .ok status body =>
    if responseOkB status then
      match body.error with
      | some e =>
        (errChainData chainKey eid w.now ("RPC error: " ++ e),
          [primaryRequest rpcUrl query])
      | none =>
        match w.respond (blockInfoRequest rpcUrl query) with
        | .reject msg =>
          (errChainData chainKey eid w.now msg,
            [primaryRequest rpcUrl query, blockInfoRequest rpcUrl query])
        | .ok _ body2 =>
          ({ chainKey := chainKey, eid := eid,
             blockNumber := jsParseInt16 (hexOrDefault (blockNumberField body2.result)),
             timestamp := jsParseInt16 (hexOrDefault (blockTimestampField body2.result)),
             data := dataFor query body.result },
            [primaryRequest rpcUrl query, blockInfoRequest rpcUrl query])
    else
      (errChainData chainKey eid w.now ("HTTP error! status: " ++ toString status),
        [primaryRequest rpcUrl query])

/-! ## The dispatcher of `server/lzread.ts` (explicit not-configured entries,
error-payload filtering) -/

namespace Lzread

/-- `ChainConfig` from server/lzread.ts. -/
structure ChainConfig where
  rpcUrl : String
  lzEndpointAddress : Option String
  eid : String
deriving DecidableEq, Repr

/-- `chainConfigMap` from server/lzread.ts (six mainnet chains). -/
def chainConfigMap : String → Option ChainConfig
  | "ethereum" =>
    some { rpcUrl := "https://eth-mainnet.public.blastapi.io", eid := "30001",
           lzEndpointAddress := some "0x66A71Dcef29A0fFBDBE3c6a460a3B5BC225Cd675" }
  | "arbitrum" =>
    some { rpcUrl := "https://arb1.arbitrum.io/rpc", eid := "30110",
           lzEndpointAddress := some "0x3c2269811836af69497E5F486A85D7316753cf62" }
  | "optimism" =>
    some { rpcUrl := "https://mainnet.optimism.io", eid := "30111",
           lzEndpointAddress := some "0x3c2269811836af69497E5F486A85D7316753cf62" }
  | "polygon" =>
    some { rpcUrl := "https://polygon-rpc.com", eid := "30109",
           lzEndpointAddress := some "0x3c2269811836af69497E5F486A85D7316753cf62" }
  | "avalanche" =>
    some { rpcUrl := "https://api.avax.network/ext/bc/C/rpc", eid := "30106",
           lzEndpointAddress := some "0x3c2269811836af69497E5F486A85D7316753cf62" }
  | "bsc" =>
    some { rpcUrl := "https://bsc-dataseed.binance.org", eid := "30102",
           lzEndpointAddress := some "0x3c2269811836af69497E5F486A85D7316753cf62" }
  | _ => none

/-- The per-chain arm of the fan-out in `performCrossChainQuery`: a chain
missing from the configuration table resolves immediately to the explicit
not-configured error entry, otherwise `fetchChainData` runs. -/
def chainResultFor (w : World) (query : CrossChainQuery) (chainKey : String) :
    ChainData × List RpcRequest :=
  match chainConfigMap chainKey with
  | none =>
    ({ chainKey := chainKey, eid := "0", blockNumber := some 0,
       timestamp := some (w.now : Int),
       data := .errObj "Chain not configured for lzRead" }, [])
  | some cfg => fetchChainData w cfg.rpcUrl chainKey cfg.eid query

/-- The fan-out: one resolver invocation per requested chain, results kept
in chain-list order (`Promise.all` preserves input order). -/
def fanOut (w : World) (query : CrossChainQuery) :
    List (ChainData × List RpcRequest) :=
  query.chains.map (chainResultFor w query)

/-- The JavaScript filter predicate `!r.data.error` evaluated on one
payload.  Reading `.error` off `null`/`undefined` throws a `TypeError`
(which would escape to the dispatcher's `catch`); an error object is
dropped exactly when its `error` field is truthy (non-empty). -/
def dataErrTruthy : JsData → Except String Bool
  | .nullVal => .error "TypeError: Cannot read properties of null (reading 'error')"
  | .errObj m => .ok (m ≠ "")
  | _ => .ok false

/-- `results.filter(r => !r.data.error)` over the fan-out results. -/
def filterVisible : List ChainData → Except String (List ChainData)
  | [] => .ok []
  | cd :: rest =>
    match dataErrTruthy cd.data with
    | .error e => .error e
    | .ok dropped =>
      match filterVisible rest with
      | .error e => .error e
      | .ok tail => .ok (if dropped then tail else cd :: tail)

/-- The pending record created synchronously at the start of a dispatch. -/
def pendingRecord (freshId : String) (now : Nat) (query : CrossChainQuery) :
    LzReadRequest :=
  { id := freshId, sourceChain := "explorer", targetChains := query.chains,
    requestType := queryTypeStr query.queryType, status := .pending,
    timestamp := now, result := none, walletScan := none }

/-- The per-chain results of the fan-out, in chain-list order. -/
def queryResults (w : World) (query : CrossChainQuery) : List ChainData :=
  (fanOut w query).map Prod.fst

/-- All network calls issued by the fan-out, in chain-list order. -/
def queryCalls (w : World) (query : CrossChainQuery) : List RpcRequest :=
  ((fanOut w query).map Prod.snd).flatten

/-- `performCrossChainQuery` from server/lzread.ts: create and append the
pending record, fan out, drop error-tagged results from the visible list,
and mutate the record in place to `completed` — or to `failed` when an
exception escapes the fan-out (an injected orchestration fault, or the
`TypeError` raised by the error filter on a `null` payload). -/
def performCrossChainQuery (w : World) (freshId : String)
    (history : List LzReadRequest) (query : CrossChainQuery) : DispatchOut :=
  if w.orchFault then
    { history := history ++ [{ pendingRecord freshId w.now query with status := .failed }]
      record := { pendingRecord freshId w.now query with status := .failed }
      trace := [.append (pendingRecord freshId w.now query), .finalize freshId .failed] }
  else
    match filterVisible (queryResults w query) with
    | .error _ =>
      { history := history ++ [{ pendingRecord freshId w.now query with status := .failed }]
        record := { pendingRecord freshId w.now query with status := .failed }
        trace := .append (pendingRecord freshId w.now query)
          :: (queryCalls w query).map .netCall ++ [.finalize freshId .failed] }
    | .ok visible =>
      { history := history ++
          [{ pendingRecord freshId w.now query with
             status := RequestStatus.completed
             result := some { address := query.address
                              queryType := queryTypeStr query.queryType
                              results := visible
                              timestamp := w.now } }]
        record := { pendingRecord freshId w.now query with
                    status := RequestStatus.completed
                    result := some { address := query.address
                                     queryType := queryTypeStr query.queryType
                                     results := visible
                                     timestamp := w.now } }
        trace := .append (pendingRecord freshId w.now query)
          :: (queryCalls w query).map .netCall ++ [.finalize freshId .completed] }

end Lzread

/-! ## The CLI-flavoured module (the unnamed source file holding
`executeLzReadCliCommand` and the wallet vacuum) -/

namespace LzreadCli

/-- `ChainConfig` from the CLI-flavoured module. -/
structure ChainConfig where
  rpcUrl : String
  chainId : Nat
  eid : String
deriving DecidableEq, Repr

/-- `chainConfigMap` from the CLI-flavoured module (thirteen chains). -/
def chainConfigMap : String → Option ChainConfig
  | "ethereum" => some { rpcUrl := "https://eth-mainnet.public.blastapi.io", chainId := 1, eid := "30001" }
  | "arbitrum" => some { rpcUrl := "https://arb1.arbitrum.io/rpc", chainId := 42161, eid := "30110" }
  | "optimism" => some { rpcUrl := "https://mainnet.optimism.io", chainId := 10, eid := "30111" }
  | "polygon" => some { rpcUrl := "https://polygon-rpc.com", chainId := 137, eid := "30109" }
  | "avalanche" => some { rpcUrl := "https://api.avax.network/ext/bc/C/rpc", chainId := 43114, eid := "30106" }
  | "bsc" => some { rpcUrl := "https://bsc-dataseed.binance.org", chainId := 56, eid := "30102" }
  | "canto" => some { rpcUrl := "https://canto.slingshot.finance", chainId := 7700, eid := "30125" }
  | "fantom" => some { rpcUrl := "https://rpc.ftm.tools", chainId := 250, eid := "30112" }
  | "base" => some { rpcUrl := "https://mainnet.base.org", chainId := 8453, eid := "30116" }
  | "zksync" => some { rpcUrl := "https://mainnet.era.zksync.io", chainId := 324, eid := "30210" }
  | "linea" => some { rpcUrl := "https://rpc.linea.build", chainId := 59144, eid := "30118" }
  | "gnosis" => some { rpcUrl := "https://rpc.gnosischain.com", chainId := 100, eid := "30145" }
  | "moonbeam" => some { rpcUrl := "https://rpc.api.moonbeam.network", chainId := 1284, eid := "30126" }
  | _ => none

/-- The CLI method name for a query type (`buildLzReadCliCommand`). -/
def cliMethod : QueryType → String
  | .balance => "balanceOf"
  | .nonce => "nonce"
  | .code => "code"
  | .transactions => "txs"
  | .storage => "storage"

/-- `buildLzReadCliCommand`: throws when the chain is not configured,
otherwise assembles the CLI command string (the zero block number is falsy
and contributes no `--block` argument). -/
def buildLzReadCliCommand (chainKey : String) (query : CrossChainQuery) :
    Except String String :=
  match chainConfigMap chainKey with
  | none => .error ("Chain " ++ chainKey ++ " not configured for lzRead")
  | some cfg =>
    let blockArg :=
      match query.blockNumber with
      | some n => if n ≠ 0 then " --block=" ++ toString n else ""
      | none => ""
    let extraArgs := if query.queryType = .storage then " --slot=0" else ""
    .ok ("lzread " ++ cliMethod query.queryType ++ " --chain=" ++ toString cfg.chainId
      ++ " --endpoint=" ++ cfg.eid ++ " --address=" ++ query.address
      ++ blockArg ++ extraArgs)

/-- `executeLzReadCliCommand`: a chain missing from the configuration table
returns `null` (skipped); otherwise the command is built (it cannot throw
here, the configuration exists) and the RPC fallback `fetchChainData`
resolves the chain. -/
def executeLzReadCliCommand (w : World) (chainKey : String)
    (query : CrossChainQuery) : Option ChainData × List RpcRequest :=
  match chainConfigMap chainKey with
  | none => (none, [])
  | some cfg =>
    let res := fetchChainData w cfg.rpcUrl chainKey cfg.eid query
    (some res.1, res.2)

/-- The pending record created synchronously at the start of a dispatch. -/
def pendingRecord (freshId : String) (now : Nat) (query : CrossChainQuery) :
    LzReadRequest :=
  { id := freshId, sourceChain := "explorer", targetChains := query.chains,
    requestType := queryTypeStr query.queryType, status := .pending,
    timestamp := now, result := none, walletScan := none }

/-- The non-null per-chain results kept by the CLI dispatcher
(`cliResults.filter(r => r !== null)`), in chain-list order. -/
def cliValidResults (w : World) (query : CrossChainQuery) : List ChainData :=
  ((query.chains.map (fun ck => executeLzReadCliCommand w ck query)).map
    Prod.fst).filterMap id

/-- All network calls issued by the CLI dispatcher's fan-out. -/
def cliCalls (w : World) (query : CrossChainQuery) : List RpcRequest :=
  ((query.chains.map (fun ck => executeLzReadCliCommand w ck query)).map
    Prod.snd).flatten

/-- `performCrossChainQuery` from the CLI-flavoured module: append the
pending record, run `executeLzReadCliCommand` per chain, keep the non-null
results in chain-list order, and mutate the record in place to `completed`
— or to `failed` when an orchestration-level exception escapes. -/
def performCrossChainQuery (w : World) (freshId : String)
    (history : List LzReadRequest) (query : CrossChainQuery) : DispatchOut :=
  if w.orchFault then
    { history := history ++ [{ pendingRecord freshId w.now query with status := .failed }]
      record := { pendingRecord freshId w.now query with status := .failed }
      trace := [.append (pendingRecord freshId w.now query), .finalize freshId .failed] }
  else
    { history := history ++
        [{ pendingRecord freshId w.now query with
           status := RequestStatus.completed
           result := some { address := query.address
                            queryType := queryTypeStr query.queryType
                            results := cliValidResults w query
                            timestamp := w.now } }]
      record := { pendingRecord freshId w.now query with
                  status := RequestStatus.completed
                  result := some { address := query.address
                                   queryType := queryTypeStr query.queryType
                                   results := cliValidResults w query
                                   timestamp := w.now } }
      trace := .append (pendingRecord freshId w.now query)
        :: (cliCalls w query).map .netCall ++ [.finalize freshId .completed] }

/-- `getChainNativeSymbol`. -/
def getChainNativeSymbol : String → String
  | "ethereum" => "ETH"
  | "arbitrum" => "ETH"
  | "optimism" => "ETH"
  | "polygon" => "MATIC"
  | "avalanche" => "AVAX"
  | "bsc" => "BNB"
  | "canto" => "CANTO"
  | "fantom" => "FTM"
  | "base" => "ETH"
  | "zksync" => "ETH"
  | "linea" => "ETH"
  | "gnosis" => "xDAI"
  | "moonbeam" => "GLMR"
  | _ => "NATIVE"

/-- `getChainNativeName`. -/
def getChainNativeName : String → String
  | "ethereum" => "Ethereum"
  | "arbitrum" => "Ethereum"
  | "optimism" => "Ethereum"
  | "polygon" => "Matic"
  | "avalanche" => "Avalanche"
  | "bsc" => "Binance Coin"
  | "canto" => "Canto"
  | "fantom" => "Fantom"
  | "base" => "Ethereum"
  | "zksync" => "Ethereum"
  | "linea" => "Ethereum"
  | "gnosis" => "xDAI"
  | "moonbeam" => "Glimmer"
  | _ => "Native Token"

/-- Is a raw stored balance counted as a holding?  The code compares with
strict inequality against the two zero spellings:
`a.balance !== '0x0' && a.balance !== '0'` (a non-string value — such as an
error object — is unequal to both strings and therefore counts). -/
def balNonZero (a : AssetData) : Bool :=
  match a.balance with
  | .str s => s != "0x0" && s != "0"
  | _ => true

/-- The per-chain arm of the wallet vacuum: skip unconfigured chains
(`null`), otherwise resolve the native balance via `fetchChainData` with a
single-chain `balance` query and package an `AssetData` (fixed 18 decimals;
`balance` is `nativeData.data || '0x0'`, which need not be a string when
the resolver returned an error object — `formatBalance` receives it through
`parseInt`'s `String(·)` coercion, hoisted here to the call boundary, an
observationally equivalent placement).  The surrounding per-chain `catch`
is unreachable here because the resolver never raises. -/
def vacuumChainAsset (w : World) (address chainKey : String) :
    Option AssetData × List RpcRequest :=
  match chainConfigMap chainKey with
  | none => (none, [])
  | some cfg =>
    let q : CrossChainQuery :=
      { address := address, queryType := .balance, chains := [chainKey],
        blockNumber := none }
    let res := fetchChainData w cfg.rpcUrl chainKey cfg.eid q
    let bal := jsOrDefault res.1.data
    (some { chain := chainKey, eid := cfg.eid, assetType := "native",
            symbol := getChainNativeSymbol chainKey,
            name := getChainNativeName chainKey,
            balance := bal,
            balanceFormatted := formatBalance (jsStringOf bal) 18,
            decimals := 18, blockNumber := res.1.blockNumber,
            lastUpdated := res.1.timestamp }, res.2)

/-- The pending record of a wallet-vacuum dispatch (request type is the
fixed label `"wallet_vacuum"`). -/
def vacuumPendingRecord (freshId : String) (now : Nat) (_address : String)
    (chains : List String) : LzReadRequest :=
  { id := freshId, sourceChain := "explorer", targetChains := chains,
    requestType := "wallet_vacuum", status := .pending,
    timestamp := now, result := none, walletScan := none }

/-- The non-null per-chain assets kept by the vacuum
(`assetPromises` results with `a !== null`), in chain-list order. -/
def vacuumAssets (w : World) (address : String) (chains : List String) :
    List AssetData :=
  ((chains.map (vacuumChainAsset w address)).map Prod.fst).filterMap id

/-- All network calls issued by the vacuum's fan-out. -/
def vacuumCalls (w : World) (address : String) (chains : List String) :
    List RpcRequest :=
  ((chains.map (vacuumChainAsset w address)).map Prod.snd).flatten

/-- The `WalletScanResult` assembled on successful completion.
`chainsWithAssets` is `new Set(assets.filter(nonzero).map(a => a.chain)).size`:
the number of distinct chains among the non-zero-balance assets. -/
def walletScanOf (w : World) (address : String) (chains : List String) :
    WalletScanResult :=
  { address := address
    totalChains := chains.length
    chainsWithAssets :=
      (((vacuumAssets w address chains).filter balNonZero).map
        AssetData.chain).dedup.length
    assets := vacuumAssets w address chains
    timestamp := w.now }

/-- `performWalletVacuum`: same pending/completed/failed lifecycle, with a
`WalletScanResult` attached on completion. -/
def performWalletVacuum (w : World) (freshId : String)
    (history : List LzReadRequest) (address : String) (chains : List String) :
    DispatchOut :=
  if w.orchFault then
    { history := history ++
        [{ vacuumPendingRecord freshId w.now address chains with status := .failed }]
      record := { vacuumPendingRecord freshId w.now address chains with status := .failed }
      trace := [.append (vacuumPendingRecord freshId w.now address chains),
        .finalize freshId .failed] }
  else
    { history := history ++
        [{ vacuumPendingRecord freshId w.now address chains with
           status := RequestStatus.completed
           walletScan := some (walletScanOf w address chains) }]
      record := { vacuumPendingRecord freshId w.now address chains with
                  status := RequestStatus.completed
                  walletScan := some (walletScanOf w address chains) }
      trace := .append (vacuumPendingRecord freshId w.now address chains)
        :: (vacuumCalls w address chains).map .netCall ++ [.finalize freshId .completed] }

end LzreadCli

/-! ## The request ledger accessors (identical in both modules) -/

/-- The relation `b.timestamp ≤ a.timestamp` the ledger is sorted by
(descending creation time; the JavaScript comparator is
`(a, b) => b.timestamp - a.timestamp`). -/
def tsGE (a b : LzReadRequest) : Prop :=
  b.timestamp ≤ a.timestamp

instance : DecidableRel tsGE :=
  fun a b => Nat.decLe b.timestamp a.timestamp

/-- The in-place `Array.prototype.sort` of the ledger: a stable sort under
the descending-timestamp comparator (V8's sort is stable, so any stable
sort — here insertion sort — produces the identical array). -/
def jsSortByTimestampDesc (history : List LzReadRequest) : List LzReadRequest :=
  List.insertionSort tsGE history

/-- `getRecentRequests(limit)`: sorts the ledger **in place** (JavaScript
`sort` mutates the backing array) and returns a sliced copy of the first
`limit` entries.  The first component is the ledger after the call, the
second the returned list. -/
def getRecentRequests (history : List LzReadRequest) (limit : Nat) :
    List LzReadRequest × List LzReadRequest :=
  let sorted := jsSortByTimestampDesc history
  (sorted, sorted.take limit)

/-- `getRecentRequests()` with the `limit` parameter omitted (defaults
to 10). -/
def getRecentRequestsDefault (history : List LzReadRequest) :
    List LzReadRequest × List LzReadRequest :=
  getRecentRequests history 10

/-- `getRequestById(id)`: linear scan for the first record with the id. -/
def getRequestById (history : List LzReadRequest) (id : String) :
    Option LzReadRequest :=
  history.find? (fun req => req.id == id)

/-! ## Helper lemmas -/

theorem errMsgOr_ne (msg : String) : errMsgOr msg ≠ "" := by
  unfold errMsgOr
  split
  · decide
  · assumption

theorem dataFor_ne_errObj (query : CrossChainQuery) (r : Option JsVal) (m : String) :
    dataFor query r ≠ JsData.errObj m := by
  cases r with
  | none => simp [dataFor]
  | some v =>
    cases v with
    | str s => simp [dataFor]
    | block num ts txs =>
      by_cases hq : query.queryType = QueryType.transactions <;> simp [dataFor, hq]

theorem errObj_msg_of_errChainData (ck eid : String) (now : Nat) (msg m : String)
    (h : (errChainData ck eid now msg).data = JsData.errObj m) : m ≠ "" := by
  simp only [errChainData, JsData.errObj.injEq] at h
  exact h ▸ errMsgOr_ne msg

theorem fetchChainData_errObj_ne_empty (w : World) (url chainKey eid : String)
    (query : CrossChainQuery) (m : String)
    (h : (fetchChainData w url chainKey eid query).1.data = JsData.errObj m) :
    m ≠ "" := by
  unfold fetchChainData at h
  cases hr : w.respond (primaryRequest url query) with
  | reject msg =>
    rw [hr] at h
    exact errObj_msg_of_errChainData _ _ _ _ _ h
  | ok status body =>
    rw [hr] at h
    dsimp only at h
    by_cases hok : responseOkB status = true
    · rw [if_pos hok] at h
      cases herr : body.error with
      | some e =>
        rw [herr] at h
        exact errObj_msg_of_errChainData _ _ _ _ _ h
      | none =>
        rw [herr] at h
        cases hr2 : w.respond (blockInfoRequest url query) with
        | reject msg =>
          rw [hr2] at h
          exact errObj_msg_of_errChainData _ _ _ _ _ h
        | ok status2 body2 =>
          rw [hr2] at h
          exact absurd h (dataFor_ne_errObj query body.result m)
    · rw [if_neg hok] at h
      exact errObj_msg_of_errChainData _ _ _ _ _ h

/-! ## C1 — the resolver absorbs every failure into an error-shaped result -/

/-- C1: for every chain present in the configuration table and every query,
a primary RPC call that fails at the transport level (including the
10-second abort), at the HTTP level (non-2xx status), or at the JSON-RPC
level (truthy `error` field) makes `fetchChainData` return — not raise — a
`ChainData` whose payload is an error object with a non-empty
human-readable message, whose block number is 0, and whose timestamp is the
resolution wall-clock reading (hence non-zero when the clock is). -/
theorem errChainData_failure_spec (ck eid : String) (now : Nat) (msg : String) :
    ∃ m, m ≠ "" ∧ errChainData ck eid now msg =
      { chainKey := ck, eid := eid, blockNumber := some 0,
        timestamp := some (now : Int), data := JsData.errObj m } ∧
      (0 < now → (errChainData ck eid now msg).timestamp ≠ some 0) := by
  refine ⟨errMsgOr msg, errMsgOr_ne msg, rfl, ?_⟩
  intro hpos hc
  simp only [errChainData, Option.some.injEq] at hc
  omega

theorem fetchChainData_failure_returns_error_result
    (w : World) (chainKey : String) (cfg : LzreadCli.ChainConfig)
    (query : CrossChainQuery)
    (hcfg : LzreadCli.chainConfigMap chainKey = some cfg)
    (hfail : failedOutcome (w.respond (primaryRequest cfg.rpcUrl query)) = true) :
    ∃ msg, msg ≠ "" ∧
      (fetchChainData w cfg.rpcUrl chainKey cfg.eid query).1 =
        { chainKey := chainKey, eid := cfg.eid, blockNumber := some 0,
          timestamp := some (w.now : Int), data := JsData.errObj msg } ∧
      (0 < w.now →
        (fetchChainData w cfg.rpcUrl chainKey cfg.eid query).1.timestamp ≠ some 0) := by
  unfold fetchChainData
  cases hr : w.respond (primaryRequest cfg.rpcUrl query) with
  | reject msg =>
    exact errChainData_failure_spec chainKey cfg.eid w.now msg
  | ok status body =>
    rw [hr] at hfail
    dsimp only
    by_cases hok : responseOkB status = true
    · simp only [failedOutcome, hok, Bool.not_true, Bool.false_or] at hfail
      obtain ⟨e, herr⟩ := Option.isSome_iff_exists.mp hfail
      rw [if_pos hok, herr]
      exact errChainData_failure_spec chainKey cfg.eid w.now _
    · rw [if_neg hok]
      exact errChainData_failure_spec chainKey cfg.eid w.now _

/-- A world in which every network call is rejected. -/
def wReject : World :=
  { respond := fun _ => .reject "network down", now := 5, orchFault := false }

/-- A concrete balance query against ethereum. -/
def qBalanceEth : CrossChainQuery :=
  { address := "0xabc", queryType := .balance, chains := ["ethereum"],
    blockNumber := none }

/-- The ethereum entry of the CLI-module configuration table. -/
def ethCfgCli : LzreadCli.ChainConfig :=
  { rpcUrl := "https://eth-mainnet.public.blastapi.io", chainId := 1, eid := "30001" }

/-- Witness for C1 at a concrete failing world. -/
theorem fetchChainData_failure_returns_error_result_witness :
    ∃ msg, msg ≠ "" ∧
      (fetchChainData wReject ethCfgCli.rpcUrl "ethereum" ethCfgCli.eid qBalanceEth).1 =
        { chainKey := "ethereum", eid := ethCfgCli.eid, blockNumber := some 0,
          timestamp := some (wReject.now : Int), data := JsData.errObj msg } ∧
      (0 < wReject.now →
        (fetchChainData wReject ethCfgCli.rpcUrl "ethereum" ethCfgCli.eid qBalanceEth).1.timestamp
          ≠ some 0) :=
  fetchChainData_failure_returns_error_result wReject "ethereum" ethCfgCli qBalanceEth
    (by decide) (by decide)

/-! ## C8 — block-parameter serialization (amended: zero is falsy) -/

/-- Spec-side block tag, following the amended claim: a supplied *non-zero*
block number is serialized as `"0x"` plus its base-16 digits; an absent or
zero block number maps to the literal `"latest"`. -/
def blockTagSpec (bn : Option Nat) : String :=
  match bn with
  | some n => if n = 0 then "latest" else "0x" ++ natHexStr n
  | none => "latest"

/-- Spec-side method table, following §4.1 of the specification. -/
def rpcMethodSpec : QueryType → String
  | .balance => "eth_getBalance"
  | .nonce => "eth_getTransactionCount"
  | .code => "eth_getCode"
  | .transactions => "eth_getBlockByNumber"
  | .storage => "eth_getStorageAt"

/-- Spec-side parameter shapes, following §4.1 of the specification with
the amended block-tag rule. -/
def rpcParamsSpec (q : CrossChainQuery) : List RpcParam :=
  match q.queryType with
  | .balance => [.str q.address, .str (blockTagSpec q.blockNumber)]
  | .nonce => [.str q.address, .str (blockTagSpec q.blockNumber)]
  | .code => [.str q.address, .str (blockTagSpec q.blockNumber)]
  | .transactions => [.str (blockTagSpec q.blockNumber), .bool true]
  | .storage => [.str q.address, .str "0x0", .str (blockTagSpec q.blockNumber)]

theorem jsBlockTag_eq_spec (bn : Option Nat) : jsBlockTag bn = blockTagSpec bn := by
  cases bn with
  | none => rfl
  | some n =>
    by_cases hn : n = 0 <;> simp [jsBlockTag, blockTagSpec, hn]

/-- C8 (amended): in both JSON-RPC calls of the resolver, the block
parameter is the supplied block number serialized as a hex string whenever
that number is non-zero, and the literal `"latest"` when the block number
is absent **or zero** (JavaScript truthiness treats a zero block number
like an absent one); methods and parameter shapes follow the fixed
query-type table. -/
theorem rpcMethodParams_follows_spec (q : CrossChainQuery) (url : String) :
    (rpcMethodParams q).1 = rpcMethodSpec q.queryType ∧
    (rpcMethodParams q).2 = rpcParamsSpec q ∧
    (blockInfoRequest url q).params = [.str (blockTagSpec q.blockNumber), .bool false] := by
  obtain ⟨addr, qt, chains, bn⟩ := q
  refine ⟨?_, ?_, ?_⟩
  · cases qt <;> rfl
  · cases qt <;>
      simp [rpcMethodParams, rpcParamsSpec, jsBlockTag_eq_spec]
  · simp [blockInfoRequest, jsBlockTag_eq_spec]

/-- A query that supplies the block number zero. -/
def qBlockZero : CrossChainQuery :=
  { address := "0xabc", queryType := .balance, chains := ["ethereum"],
    blockNumber := some 0 }

/-- Counterexample to C8 as stated: with the block number 0 supplied, the
block parameter actually sent is `"latest"`, not the hex serialization
`"0x0"` of the supplied number. -/
theorem blockZero_sends_latest_not_hex :
    (rpcMethodParams qBlockZero).2 = [.str "0xabc", .str "latest"] ∧
    RpcParam.str "latest" ≠ RpcParam.str ("0x" ++ natHexStr 0) := by
  constructor
  · rfl
  · decide

/-! ## C6 — formatBalance (amended: parse failure yields "NaN") -/

/-- C6 (amended): `formatBalance` returns `"0"` on the zero hex string
`"0x0"`; returns exactly `"< 0.0001"` on any balance whose decoded value
divided by `10^decimals` is positive but below `0.0001`; and on a
non-empty string with no parseable hex digits it returns `"NaN"` —
`parseInt` yields `NaN` instead of throwing, so the `catch` branch that
would return `"0"` is never taken (only the empty string falls back to
`"0"`, via the falsiness guard). -/
theorem formatBalance_zero_threshold_nan :
    (∀ d, formatBalance "0x0" d = "0") ∧
    (∀ (s : String) (d : Nat) (v : Int), jsParseInt16 s = some v → 0 < v →
      10000 * v < (10 : Int) ^ d → formatBalance s d = "< 0.0001") ∧
    (∀ (s : String) (d : Nat), s ≠ "" → jsParseInt16 s = none →
      formatBalance s d = "NaN") := by
  refine ⟨?_, ?_, ?_⟩
  · intro d
    simp [formatBalance]
  · intro s d v hparse hpos hlt
    have hs0 : s ≠ "" := by
      intro h
      rw [h, show jsParseInt16 "" = none by decide] at hparse
      exact Option.noConfusion hparse
    have hsx : s ≠ "0x0" := by
      intro h
      rw [h, show jsParseInt16 "0x0" = some 0 by decide] at hparse
      have hv0 : (0 : Int) = v := Option.some.inj hparse
      omega
    unfold formatBalance
    rw [if_neg (by simp [hs0, hsx]), hparse]
    dsimp only
    rw [if_pos ⟨hpos, hlt⟩]
  · intro s d hs hparse
    have hsx : s ≠ "0x0" := by
      intro h
      rw [h, show jsParseInt16 "0x0" = some 0 by decide] at hparse
      exact Option.noConfusion hparse
    unfold formatBalance
    rw [if_neg (by simp [hs, hsx]), hparse]

/-- Witness for C6 at concrete inputs: the zero string, a dust balance of
5 wei at 18 decimals, and an unparseable string. -/
theorem formatBalance_zero_threshold_nan_witness :
    formatBalance "0x0" 18 = "0" ∧
    formatBalance "0x5" 18 = "< 0.0001" ∧
    formatBalance "zz" 18 = "NaN" :=
  ⟨formatBalance_zero_threshold_nan.1 18,
   formatBalance_zero_threshold_nan.2.1 "0x5" 18 5 (by decide) (by decide) (by decide),
   formatBalance_zero_threshold_nan.2.2 "zz" 18 (by decide) (by decide)⟩

/-- Counterexample to C6 as stated: on the unparseable balance string
`"zz"` the formatter returns `"NaN"`, not `"0"` — `parseInt` produces
`NaN` rather than throwing, and `NaN.toLocaleString()` renders `"NaN"`. -/
theorem formatBalance_parse_failure_is_nan_not_zero :
    formatBalance "zz" 18 = "NaN" ∧ ("NaN" : String) ≠ "0" := by
  constructor
  · decide
  · decide

/-! ## C5 — getRecentRequests (amended: the sort mutates the ledger) -/

instance : IsTotal LzReadRequest tsGE :=
  ⟨fun a b => Nat.le_total b.timestamp a.timestamp⟩

instance : IsTrans LzReadRequest tsGE :=
  ⟨fun _ _ _ hab hbc => Nat.le_trans hbc hab⟩

/-- C5 (amended): `getRecentRequests` returns at most `limit` records,
sorted by creation timestamp in descending order, with the limit
defaulting to 10 when omitted; but the call sorts the ledger **in place**
(JavaScript `Array.prototype.sort` mutates the backing array), so after
the call the ledger holds the same records as a permutation in
descending-timestamp order — not necessarily the original order. -/
theorem getRecentRequests_sorted_limited_permutes
    (history : List LzReadRequest) (limit : Nat) :
    (getRecentRequests history limit).2.length ≤ limit ∧
    List.Sorted tsGE (getRecentRequests history limit).2 ∧
    (getRecentRequests history limit).2 = (getRecentRequests history limit).1.take limit ∧
    List.Sorted tsGE (getRecentRequests history limit).1 ∧
    (getRecentRequests history limit).1.Perm history ∧
    getRecentRequestsDefault history = getRecentRequests history 10 := by
  have hsorted : List.Sorted tsGE (jsSortByTimestampDesc history) :=
    List.sorted_insertionSort tsGE history
  refine ⟨?_, ?_, rfl, hsorted, ?_, rfl⟩
  · show (List.take limit (jsSortByTimestampDesc history)).length ≤ limit
    exact (List.length_take _ _).le.trans (Nat.min_le_left _ _)
  · show List.Sorted tsGE (List.take limit (jsSortByTimestampDesc history))
    exact List.Pairwise.sublist (List.take_sublist _ _) hsorted
  · show (jsSortByTimestampDesc history).Perm history
    exact List.perm_insertionSort tsGE history

/-- Two concrete ledger records with distinct creation timestamps. -/
def recEarly : LzReadRequest :=
  { id := "req-early", sourceChain := "explorer", targetChains := ["ethereum"],
    requestType := "balance", status := .completed, timestamp := 1,
    result := none, walletScan := none }

def recLate : LzReadRequest :=
  { id := "req-late", sourceChain := "explorer", targetChains := ["ethereum"],
    requestType := "balance", status := .completed, timestamp := 2,
    result := none, walletScan := none }

/-- Counterexample to C5 as stated: on the ledger `[recEarly, recLate]`
(appended in creation order), `getRecent` leaves the ledger reordered to
`[recLate, recEarly]` — the records are no longer in their original
order, so the call does mutate the ledger. -/
theorem getRecentRequests_mutates_ledger :
    (getRecentRequests [recEarly, recLate] 10).1 = [recLate, recEarly] ∧
    (getRecentRequests [recEarly, recLate] 10).1 ≠ [recEarly, recLate] := by
  constructor
  · decide
  · decide

/-! ## C2 — ledger lifecycle of a dispatch -/

/-- C2: for both dispatch entry points, a record in `pending` status is
appended to the ledger before any per-chain network call begins (the trace
opens with the append; every network call comes after); the record's
status then changes exactly once, in place (the final ledger is the
original plus the single mutated record, same id and creation timestamp),
to `completed` or `failed`; and it reaches `failed` exactly when an
orchestration-level exception escapes the fan-out — per-chain failures,
which are absorbed into error payloads, never produce a `failed` record. -/
theorem dispatch_lifecycle
    (w : World) (freshId : String) (history : List LzReadRequest)
    (query : CrossChainQuery) (address : String) (chains : List String) :
    (let out := LzreadCli.performCrossChainQuery w freshId history query
     let pend := LzreadCli.pendingRecord freshId w.now query
     pend.status = RequestStatus.pending ∧
     (∃ (calls : List RpcRequest) (st : RequestStatus),
        out.trace = Event.append pend :: calls.map Event.netCall
          ++ [Event.finalize freshId st] ∧
        (st = RequestStatus.completed ∨ st = RequestStatus.failed) ∧
        out.record.status = st) ∧
     out.history = history ++ [out.record] ∧
     out.record.id = pend.id ∧ out.record.timestamp = pend.timestamp ∧
     (out.record.status = RequestStatus.failed ↔ w.orchFault = true)) ∧
    (let out := LzreadCli.performWalletVacuum w freshId history address chains
     let pend := LzreadCli.vacuumPendingRecord freshId w.now address chains
     pend.status = RequestStatus.pending ∧
     (∃ (calls : List RpcRequest) (st : RequestStatus),
        out.trace = Event.append pend :: calls.map Event.netCall
          ++ [Event.finalize freshId st] ∧
        (st = RequestStatus.completed ∨ st = RequestStatus.failed) ∧
        out.record.status = st) ∧
     out.history = history ++ [out.record] ∧
     out.record.id = pend.id ∧ out.record.timestamp = pend.timestamp ∧
     (out.record.status = RequestStatus.failed ↔ w.orchFault = true)) := by
  constructor
  · dsimp only
    by_cases hw : w.orchFault = true
    · unfold LzreadCli.performCrossChainQuery
      rw [if_pos hw]
      exact ⟨rfl, ⟨[], RequestStatus.failed, rfl, Or.inr rfl, rfl⟩, rfl, rfl, rfl,
        by simp [hw]⟩
    · unfold LzreadCli.performCrossChainQuery
      rw [if_neg hw]
      exact ⟨rfl, ⟨_, RequestStatus.completed, rfl, Or.inl rfl, rfl⟩, rfl, rfl, rfl,
        by simp [hw]⟩
  · dsimp only
    by_cases hw : w.orchFault = true
    · unfold LzreadCli.performWalletVacuum
      rw [if_pos hw]
      exact ⟨rfl, ⟨[], RequestStatus.failed, rfl, Or.inr rfl, rfl⟩, rfl, rfl, rfl,
        by simp [hw]⟩
    · unfold LzreadCli.performWalletVacuum
      rw [if_neg hw]
      exact ⟨rfl, ⟨_, RequestStatus.completed, rfl, Or.inl rfl, rfl⟩, rfl, rfl, rfl,
        by simp [hw]⟩

/-! ## C10 — dispatchers return terminal records reachable by id -/

theorem find_id_in_appended (history : List LzReadRequest) (r : LzReadRequest)
    (freshId : String) (hfresh : ∀ x ∈ history, x.id ≠ freshId)
    (hr : r.id = freshId) :
    getRequestById (history ++ [r]) freshId = some r := by
  induction history with
  | nil => simp [getRequestById, List.find?, hr]
  | cons a rest ih =>
    have ha : (a.id == freshId) = false :=
      beq_eq_false_iff_ne.mpr (hfresh a (List.mem_cons_self a rest))
    have ih2 := ih (fun x hx => hfresh x (List.mem_cons_of_mem a hx))
    simpa [getRequestById, List.find?, ha] using ih2

/-- C10: whenever a dispatch returns, the returned record's status is
`completed` or `failed` — never `pending` — and, provided the generated id
is fresh (uuid uniqueness), `getRequestById` on the resulting ledger finds
exactly that record. -/
theorem dispatch_returns_terminal_record_found_by_id
    (w : World) (freshId : String) (history : List LzReadRequest)
    (query : CrossChainQuery) (address : String) (chains : List String)
    (hfresh : ∀ x ∈ history, x.id ≠ freshId) :
    (let out := LzreadCli.performCrossChainQuery w freshId history query
     (out.record.status = RequestStatus.completed ∨
        out.record.status = RequestStatus.failed) ∧
     getRequestById out.history freshId = some out.record) ∧
    (let out := LzreadCli.performWalletVacuum w freshId history address chains
     (out.record.status = RequestStatus.completed ∨
        out.record.status = RequestStatus.failed) ∧
     getRequestById out.history freshId = some out.record) := by
  constructor
  · dsimp only
    by_cases hw : w.orchFault = true
    · unfold LzreadCli.performCrossChainQuery
      rw [if_pos hw]
      exact ⟨Or.inr rfl, find_id_in_appended history _ freshId hfresh rfl⟩
    · unfold LzreadCli.performCrossChainQuery
      rw [if_neg hw]
      exact ⟨Or.inl rfl, find_id_in_appended history _ freshId hfresh rfl⟩
  · dsimp only
    by_cases hw : w.orchFault = true
    · unfold LzreadCli.performWalletVacuum
      rw [if_pos hw]
      exact ⟨Or.inr rfl, find_id_in_appended history _ freshId hfresh rfl⟩
    · unfold LzreadCli.performWalletVacuum
      rw [if_neg hw]
      exact ⟨Or.inl rfl, find_id_in_appended history _ freshId hfresh rfl⟩

/-- Witness for C10 on an empty ledger with a concrete failing world. -/
theorem dispatch_returns_terminal_record_found_by_id_witness :
    (let out := LzreadCli.performCrossChainQuery wReject "req-1" [] qBalanceEth
     (out.record.status = RequestStatus.completed ∨
        out.record.status = RequestStatus.failed) ∧
     getRequestById out.history "req-1" = some out.record) ∧
    (let out := LzreadCli.performWalletVacuum wReject "req-1" [] "0xabc" ["ethereum"]
     (out.record.status = RequestStatus.completed ∨
        out.record.status = RequestStatus.failed) ∧
     getRequestById out.history "req-1" = some out.record) :=
  dispatch_returns_terminal_record_found_by_id wReject "req-1" [] qBalanceEth
    "0xabc" ["ethereum"] (by intro x hx; cases hx)

/-! ## C3 — completed records expose no error payloads -/

theorem filterVisible_no_errObj (rs : List ChainData)
    (hne : ∀ cd ∈ rs, ∀ m, cd.data = JsData.errObj m → m ≠ "") :
    ∀ vis, Lzread.filterVisible rs = .ok vis →
      ∀ cd ∈ vis, ∀ m, cd.data ≠ JsData.errObj m := by
  induction rs with
  | nil =>
    intro vis h
    simp only [Lzread.filterVisible, Except.ok.injEq] at h
    subst h
    intro cd hcd
    cases hcd
  | cons cd0 rest ih =>
    intro vis h
    unfold Lzread.filterVisible at h
    cases h1 : Lzread.dataErrTruthy cd0.data with
    | error e =>
      rw [h1] at h
      cases h
    | ok dropped =>
      rw [h1] at h
      cases h2 : Lzread.filterVisible rest with
      | error e =>
        rw [h2] at h
        cases h
      | ok tail =>
        rw [h2] at h
        have hrest := ih (fun x hx => hne x (List.mem_cons_of_mem cd0 hx)) tail h2
        cases hdrop : dropped with
        | true =>
          rw [hdrop] at h
          simp only [if_true, Except.ok.injEq] at h
          subst h
          exact hrest
        | false =>
          rw [hdrop] at h
          simp only [Bool.false_eq_true, if_false, Except.ok.injEq] at h
          subst h
          intro x hx
          cases hx with
          | tail _ hx2 => exact hrest x hx2
          | head =>
            intro m hm
            rw [hdrop] at h1
            cases hd : cd0.data with
            | nullVal =>
              rw [hd] at h1
              cases h1
            | errObj m0 =>
              rw [hd] at h1
              have hmm : m0 ≠ "" := hne cd0 (List.mem_cons_self cd0 rest) m0 hd
              simp [Lzread.dataErrTruthy, hmm] at h1
            | str s => rw [hd] at hm; cases hm
            | block n t txs => rw [hd] at hm; cases hm
            | txObj txs n t => rw [hd] at hm; cases hm

theorem fanOut_errObj_ne_empty (w : World) (query : CrossChainQuery) :
    ∀ cd ∈ Lzread.queryResults w query, ∀ m, cd.data = JsData.errObj m → m ≠ "" := by
  intro cd hcd m hm
  simp only [Lzread.queryResults, Lzread.fanOut, List.map_map, List.mem_map,
    Function.comp] at hcd
  obtain ⟨ck, _, heq⟩ := hcd
  rw [← heq] at hm
  cases hcfg : Lzread.chainConfigMap ck with
  | none =>
    unfold Lzread.chainResultFor at hm
    rw [hcfg] at hm
    simp only [JsData.errObj.injEq] at hm
    rw [← hm]
    decide
  | some cfg =>
    unfold Lzread.chainResultFor at hm
    rw [hcfg] at hm
    exact fetchChainData_errObj_ne_empty w cfg.rpcUrl ck cfg.eid query m hm

/-- C3: whenever a cross-chain query's record reaches status `completed`,
the aggregated result exists and its visible result list contains no
`ChainResult` whose payload is an error marker — every per-chain result
whose payload carries an error is discarded by the
`results.filter(r => !r.data.error)` step. -/
theorem performCrossChainQuery_completed_drops_error_payloads
    (w : World) (freshId : String) (history : List LzReadRequest)
    (query : CrossChainQuery)
    (hc : (Lzread.performCrossChainQuery w freshId history query).record.status =
      RequestStatus.completed) :
    ∃ res, (Lzread.performCrossChainQuery w freshId history query).record.result =
        some res ∧
      ∀ cd ∈ res.results, ∀ m, cd.data ≠ JsData.errObj m := by
  unfold Lzread.performCrossChainQuery at hc ⊢
  by_cases hw : w.orchFault = true
  · rw [if_pos hw] at hc
    exact absurd hc (by simp)
  · rw [if_neg hw] at hc ⊢
    generalize hv : Lzread.filterVisible (Lzread.queryResults w query) = fv at hc ⊢
    cases fv with
    | error e => exact absurd hc (by simp)
    | ok visible =>
      exact ⟨_, rfl,
        filterVisible_no_errObj (Lzread.queryResults w query)
          (fanOut_errObj_ne_empty w query) visible hv⟩

/-- A balance query naming one configured and one unknown chain. -/
def qBalanceEthBad : CrossChainQuery :=
  { address := "0xabc", queryType := .balance,
    chains := ["ethereum", "doesnotexist"], blockNumber := none }

/-- Witness for C3: a query against `["ethereum", "doesnotexist"]` in the
all-rejecting world completes, and its visible result list (here empty —
both the network error and the configuration error were dropped) carries
no error payload. -/
theorem performCrossChainQuery_completed_drops_error_payloads_witness :
    ((Lzread.performCrossChainQuery wReject "req-c3" [] qBalanceEthBad).record.status =
      RequestStatus.completed) ∧
    ∃ res, (Lzread.performCrossChainQuery wReject "req-c3" [] qBalanceEthBad).record.result =
        some res ∧
      ∀ cd ∈ res.results, ∀ m, cd.data ≠ JsData.errObj m :=
  ⟨by decide,
    performCrossChainQuery_completed_drops_error_payloads wReject "req-c3" []
      qBalanceEthBad (by decide)⟩

/-! ## C4 — unconfigured chains: explicit error entry vs silent omission -/

theorem vacuumChainAsset_some (w : World) (address ck : String) (a : AssetData)
    (h : (LzreadCli.vacuumChainAsset w address ck).1 = some a) :
    a.chain = ck ∧ (LzreadCli.chainConfigMap ck).isSome := by
  unfold LzreadCli.vacuumChainAsset at h
  cases hcfg : LzreadCli.chainConfigMap ck with
  | none =>
    rw [hcfg] at h
    cases h
  | some cfg =>
    rw [hcfg] at h
    simp only [Option.some.injEq] at h
    subst h
    exact ⟨rfl, rfl⟩

theorem vacuumAssets_chain_configured (w : World) (address : String)
    (chains : List String) :
    ∀ a ∈ LzreadCli.vacuumAssets w address chains,
      (LzreadCli.chainConfigMap a.chain).isSome := by
  intro a ha
  simp only [LzreadCli.vacuumAssets, List.map_map, List.mem_filterMap,
    List.mem_map, Function.comp, id_eq] at ha
  obtain ⟨x, ⟨ck, hck, hx⟩, hxa⟩ := ha
  rw [← hx] at hxa
  obtain ⟨hchain, hcfg⟩ := vacuumChainAsset_some w address ck a hxa
  rw [hchain]
  exact hcfg

/-- C4: a chain key absent from the configuration tables is handled
differently by the two entry points.  The standard query dispatcher
produces an explicit "not configured" error `ChainResult` for that chain
in its fan-out, while the wallet vacuum omits the chain entirely: no asset
entry carries it (hence it contributes nothing to `chainsWithAssets`,
which counts over the asset list) — yet it still counts toward
`totalChains`, which equals the length of the requested chain list. -/
theorem notConfigured_error_entry_vs_vacuum_omission
    (w : World) (freshId : String) (history : List LzReadRequest)
    (query : CrossChainQuery) (address : String) (chains : List String)
    (chainKey : String)
    (h1 : Lzread.chainConfigMap chainKey = none)
    (h2 : LzreadCli.chainConfigMap chainKey = none)
    (hq : chainKey ∈ query.chains) (hc : chainKey ∈ chains)
    (hw : w.orchFault = false) :
    ({ chainKey := chainKey, eid := "0", blockNumber := some 0,
       timestamp := some (w.now : Int),
       data := JsData.errObj "Chain not configured for lzRead" } : ChainData)
      ∈ Lzread.queryResults w query ∧
    (∃ ws, (LzreadCli.performWalletVacuum w freshId history address
        chains).record.walletScan = some ws ∧
      (∀ a ∈ ws.assets, a.chain ≠ chainKey) ∧
      chainKey ∉ (ws.assets.filter LzreadCli.balNonZero).map AssetData.chain ∧
      ws.totalChains = chains.length) := by
  constructor
  · simp only [Lzread.queryResults, Lzread.fanOut, List.map_map, List.mem_map,
      Function.comp]
    refine ⟨chainKey, hq, ?_⟩
    unfold Lzread.chainResultFor
    rw [h1]
  · unfold LzreadCli.performWalletVacuum
    rw [if_neg (by simp [hw])]
    refine ⟨_, rfl, ?_, ?_, rfl⟩
    · intro a ha heq
      have := vacuumAssets_chain_configured w address chains a ha
      rw [heq, h2] at this
      cases this
    · intro hmem
      simp only [List.mem_map, List.mem_filter] at hmem
      obtain ⟨a, ⟨ha, _⟩, heq⟩ := hmem
      have := vacuumAssets_chain_configured w address chains a ha
      rw [heq, h2] at this
      cases this

/-- Witness for C4 with the unknown chain `"doesnotexist"` requested by
both entry points in the all-rejecting world. -/
theorem notConfigured_error_entry_vs_vacuum_omission_witness :
    ({ chainKey := "doesnotexist", eid := "0", blockNumber := some 0,
       timestamp := some (wReject.now : Int),
       data := JsData.errObj "Chain not configured for lzRead" } : ChainData)
      ∈ Lzread.queryResults wReject qBalanceEthBad ∧
    (∃ ws, (LzreadCli.performWalletVacuum wReject "req-c4" [] "0xabc"
        ["doesnotexist", "polygon"]).record.walletScan = some ws ∧
      (∀ a ∈ ws.assets, a.chain ≠ "doesnotexist") ∧
      "doesnotexist" ∉ (ws.assets.filter LzreadCli.balNonZero).map AssetData.chain ∧
      ws.totalChains = (["doesnotexist", "polygon"] : List String).length) :=
  notConfigured_error_entry_vs_vacuum_omission wReject "req-c4" [] qBalanceEthBad
    "0xabc" ["doesnotexist", "polygon"] "doesnotexist" rfl rfl
    (by decide) (by decide) rfl

/-! ## C7 — chainsWithAssets (amended: counted on the raw balance string) -/

/-- The count the claim describes: distinct chains whose **formatted**
balance is neither the literal zero string nor the raw zero-hex string. -/
def formattedNonzeroChains (ws : WalletScanResult) : Nat :=
  ((ws.assets.filter
      (fun a => a.balanceFormatted != "0" && a.balanceFormatted != "0x0")).map
    AssetData.chain).dedup.length

/-- A world whose balance responses are the non-canonical zero `"0x00"`. -/
def wZeroes : World :=
  { respond := fun req =>
      if req.method = "eth_getBalance" then
        .ok 200 { result := some (.str "0x00"), error := none }
      else
        .ok 200 { result := some (.block (some "0x10") (some "0x20") []), error := none }
    now := 9
    orchFault := false }

/-- Counterexample to C7 as stated: scanning ethereum in a world that
reports the balance `"0x00"` — a zero value spelled differently from
`"0x0"` — yields `chainsWithAssets = 1` although the chain's *formatted*
balance is the literal `"0"`; the code counts raw balance strings, not
formatted ones. -/
theorem walletVacuum_counts_raw_not_formatted_cex :
    ((LzreadCli.performWalletVacuum wZeroes "req-c7" [] "0xabc"
        ["ethereum"]).record.walletScan.map WalletScanResult.chainsWithAssets
      = some 1) ∧
    ((LzreadCli.performWalletVacuum wZeroes "req-c7" [] "0xabc"
        ["ethereum"]).record.walletScan.map formattedNonzeroChains = some 0) := by
  constructor
  · decide
  · decide

/-- C7 (amended): in every `WalletScanResult` produced by the wallet
vacuum, `chainsWithAssets` equals the number of distinct chains among the
assets whose **raw** balance value is neither the string `"0x0"` nor the
string `"0"` (the comparison is on the stored raw balance, not the
formatted one); `totalChains` equals the length of the requested chain
list.  In particular — see the witness — scanning two configured chains
where one balance is `"0x0"` and the other is positive yields
`chainsWithAssets = 1` with both chains present in the assets list. -/
theorem walletVacuum_chainsWithAssets_counts_raw_balances
    (w : World) (freshId : String) (history : List LzReadRequest)
    (address : String) (chains : List String)
    (hw : w.orchFault = false) :
    ∃ ws, (LzreadCli.performWalletVacuum w freshId history address
        chains).record.walletScan = some ws ∧
      ws.chainsWithAssets =
        ((ws.assets.filter LzreadCli.balNonZero).map AssetData.chain).dedup.length ∧
      ws.totalChains = chains.length := by
  unfold LzreadCli.performWalletVacuum
  rw [if_neg (by simp [hw])]
  exact ⟨_, rfl, rfl, rfl⟩

/-- The end-to-end scenario world: ethereum holds `"0x0"`, polygon holds
`"0x16345785d8a0000"` (0.1 in 18-decimals units). -/
def wScenario : World :=
  { respond := fun req =>
      if req.url = "https://eth-mainnet.public.blastapi.io" ∧
          req.method = "eth_getBalance" then
        .ok 200 { result := some (.str "0x0"), error := none }
      else if req.url = "https://polygon-rpc.com" ∧ req.method = "eth_getBalance" then
        .ok 200 { result := some (.str "0x16345785d8a0000"), error := none }
      else
        .ok 200 { result := some (.block (some "0x10") (some "0x20") []), error := none }
    now := 9
    orchFault := false }

/-- Witness for C7 (amended), instantiated at the end-to-end scenario:
the general count equation holds, and concretely `chainsWithAssets = 1`,
both chains appear in the assets list, and polygon's formatted balance is
`"0.1"`. -/
theorem walletVacuum_chainsWithAssets_counts_raw_balances_witness :
    (∃ ws, (LzreadCli.performWalletVacuum wScenario "req-sc" [] "0xabc"
        ["ethereum", "polygon"]).record.walletScan = some ws ∧
      ws.chainsWithAssets =
        ((ws.assets.filter LzreadCli.balNonZero).map AssetData.chain).dedup.length ∧
      ws.totalChains = (["ethereum", "polygon"] : List String).length) ∧
    ((LzreadCli.performWalletVacuum wScenario "req-sc" [] "0xabc"
        ["ethereum", "polygon"]).record.walletScan.map
      (fun ws => (ws.chainsWithAssets, ws.assets.map AssetData.chain,
        ws.assets.map AssetData.balanceFormatted))
      = some (1, ["ethereum", "polygon"], ["0", "0.1"])) :=
  ⟨walletVacuum_chainsWithAssets_counts_raw_balances wScenario "req-sc" [] "0xabc"
      ["ethereum", "polygon"] rfl,
   by decide⟩

/-! ## C9 — transaction post-filtering by sender/recipient -/

/-- C9: for a `transactions` query whose primary call succeeds with a block
object (and whose follow-up header call gets any HTTP response), the
per-chain payload is the transaction object holding exactly those
transactions of the fetched block whose `from` or `to` field
case-insensitively equals the queried address: membership in the payload's
list is equivalent to membership in the block plus the match, and the
match predicate holds precisely when a present `from` or `to` field equals
the address after lower-casing. -/
theorem fetchChainData_transactions_filter
    (w : World) (url chainKey eid : String) (query : CrossChainQuery)
    (num ts : Option String) (txs : List Tx) (status : Nat) (body : RpcBody)
    (status2 : Nat) (body2 : RpcBody)
    (hq : query.queryType = QueryType.transactions)
    (h1 : w.respond (primaryRequest url query) = .ok status body)
    (hok : responseOkB status = true)
    (herr : body.error = none)
    (hres : body.result = some (.block num ts txs))
    (h2 : w.respond (blockInfoRequest url query) = .ok status2 body2) :
    (fetchChainData w url chainKey eid query).1.data =
      JsData.txObj (txs.filter (txMatch query.address)) num ts ∧
    (∀ tx, tx ∈ txs.filter (txMatch query.address) ↔
      tx ∈ txs ∧ txMatch query.address tx = true) ∧
    (∀ tx : Tx, txMatch query.address tx = true ↔
      ((∃ f, tx.txFrom = some f ∧ jsLower f = jsLower query.address) ∨
       (∃ t, tx.txTo = some t ∧ jsLower t = jsLower query.address))) := by
  refine ⟨?_, ?_, ?_⟩
  · unfold fetchChainData
    rw [h1]
    dsimp only
    rw [if_pos hok, herr]
    rw [h2]
    dsimp only
    rw [hres]
    unfold dataFor
    dsimp only
    rw [if_pos hq]
  · intro tx
    exact List.mem_filter
  · intro tx
    unfold txMatch
    cases tx.txFrom <;> cases tx.txTo <;>
      simp [Option.map, beq_iff_eq]

/-- A world whose full-block response holds two transactions, only one of
which involves the queried address (in different letter case). -/
def txA : Tx := { txFrom := some "0xAB", txTo := some "0xFF", hash := "t1" }

def txB : Tx := { txFrom := some "0xCC", txTo := none, hash := "t2" }

def wTxs : World :=
  { respond := fun req =>
      if req.params = [.str "latest", .bool true] then
        .ok 200 { result := some (.block (some "0x10") (some "0x20") [txA, txB]),
                  error := none }
      else
        .ok 200 { result := some (.block (some "0x10") (some "0x20") []), error := none }
    now := 9
    orchFault := false }

/-- A transactions query for the lower-cased form of `txA`'s sender. -/
def qTxs : CrossChainQuery :=
  { address := "0xab", queryType := .transactions, chains := ["ethereum"],
    blockNumber := none }

/-- Witness for C9: only `txA` (whose `from` is `"0xAB"`, equal to the
queried `"0xab"` up to case) survives the filter. -/
theorem fetchChainData_transactions_filter_witness :
    ((fetchChainData wTxs "https://eth-mainnet.public.blastapi.io" "ethereum"
        "30001" qTxs).1.data =
      JsData.txObj ([txA, txB].filter (txMatch qTxs.address)) (some "0x10") (some "0x20")) ∧
    ([txA, txB].filter (txMatch qTxs.address) = [txA]) :=
  ⟨(fetchChainData_transactions_filter wTxs "https://eth-mainnet.public.blastapi.io"
      "ethereum" "30001" qTxs (some "0x10") (some "0x20") [txA, txB] 200
      { result := some (.block (some "0x10") (some "0x20") [txA, txB]), error := none }
      200 { result := some (.block (some "0x10") (some "0x20") []), error := none }
      rfl (by decide) rfl rfl rfl (by decide)).1,
   by decide⟩
